import Mathlib

/-!
Verification development for the Regain backend (src/backend/app/main.py).

The relational store (SQLite, reached through app/db.py) is modelled as an
explicit in-memory state `DB` holding the three tables `users`, `simulations`
and `user_simulations` as Lean lists in row (insertion) order; a parameterized
SELECT ... WHERE with fetchone is `List.find?`, a DELETE ... WHERE is
`List.filter` with the negated condition, and an INSERT appends.  Nullable SQL
columns are `Option` fields and SQL COALESCE is `Option.getD`.  The HTTP layer
is modelled by passing the session cookie (an `Option Int` holding the bound
user id, exactly the only key main.py ever stores) and the parsed JSON fields
(`Option String`, `none` for an absent key) explicitly, and returning the
JSON response as a `Resp` value carrying the status code and body together
with the post-state.  `verify_password` lives in app/auth.py, outside the
translated sources, and is passed to `login` as an opaque boolean function:
none of the properties below depend on its behaviour.  The database clock
(SQLite datetime functions, an external collaborator) is a parameter `clock`
measured in days, the granularity at which the source's only date arithmetic,
date('now', '+7 day'), operates; `datetimeNow` renders it.
-/

/-- Row of the `users` table: id, email, password_hash, role, name
(role and name are nullable columns). -/
structure User where
  id : Int
  email : String
  password_hash : String
  role : Option String
  name : Option String
deriving DecidableEq, Repr

/-- Row of the `simulations` table.  All columns after `type` are nullable:
main.py applies COALESCE defaults on every read path. -/
structure Simulation where
  id : Int
  name : String
  type : String
  status : Option String
  progress : Option Int
  participants : Option Int
  started_at : Option String
  estimated_end : Option String
deriving DecidableEq, Repr

/-- Row of the `user_simulations` join table: a membership of a user on a
simulation, with a per-resource role. -/
structure MembershipRow where
  user_id : Int
  simulation_id : Int
  role : Option String
deriving DecidableEq, Repr

/-- The relational store: the three tables, rows kept in insertion order
(SQLite rowid order, the order an unordered SELECT returns). -/
structure DB where
  users : List User
  simulations : List Simulation
  memberships : List MembershipRow
deriving DecidableEq, Repr

/-- A JSON response: either an error status with its `{error: message}` body,
or a 200 with a typed body.  Two `err` values are equal exactly when both the
status code and the body coincide. -/
inductive Resp (α : Type) where
  | err (status : Nat) (error : String)
  | ok (body : α)
deriving DecidableEq, Repr

/-- The user object serialized by login and /auth/me:
id, email, role, name — there is no password_hash field. -/
structure PublicUser where
  id : Int
  email : String
  role : Option String
  name : Option String
deriving DecidableEq, Repr

/-- One row of the list/create response: every nullable column already
replaced by its COALESCE default. -/
structure SimView where
  id : Int
  name : String
  type : String
  status : String
  progress : Int
  participants : Int
  startedAt : String
  estimatedEnd : String
deriving DecidableEq, Repr

/-- The whitespace set of Python str.strip with no argument. -/
def isSpaceChar (c : Char) : Bool :=
  c == ' ' || c == '\t' || c == '\n' || c == '\r' || c == '\x0b' || c == '\x0c'

/-- Python str.strip(): drop leading and trailing whitespace.  Defined over
the string's character list so that it evaluates by kernel reduction. -/
def pyStrip (s : String) : String :=
  ⟨((s.data.dropWhile isSpaceChar).reverse.dropWhile isSpaceChar).reverse⟩

/-- Python str.lower(), over the character list (the repository only ever
lowercases ASCII role and email strings). -/
def pyLower (s : String) : String :=
  ⟨s.data.map Char.toLower⟩

/-- Python `x or default` on an optional string field of a parsed JSON body:
the default is substituted when the key is absent (None) or its value is the
empty string (both falsy); any other string, whitespace included, is kept. -/
def pyOr (x : Option String) (default : String) : String :=
  match x with
  | none => default
  | some s => if s = "" then default else s

/-- main.py `_is_admin`: `(role or "").lower() == "admin"`. -/
def is_admin (role : Option String) : Bool :=
  pyLower (role.getD "") == "admin"

/-- main.py `_require_user_id`: reads `user_id` from the session and raises
when it is falsy — absent, or the integer 0. -/
def require_user_id (session : Option Int) : Except Unit Int :=
  match session with
  | none => Except.error ()
  | some uid => if uid = 0 then Except.error () else Except.ok uid

/-- SQLite datetime('now') at the day granularity of the model clock. -/
def datetimeNow (clock : Int) : String :=
  "day " ++ toString clock

/-- SQLite date('now', '+d day'): the model clock advanced by d days. -/
def datePlus (clock : Int) (d : Int) : String :=
  "day " ++ toString (clock + d)

/-- The COALESCE block shared by the list and create SELECTs in main.py:
status defaults to "running", progress and participants to 0, the two
timestamps to the placeholder "—". -/
def viewOf (s : Simulation) : SimView :=
  { id := s.id
    name := s.name
    type := s.type
    status := s.status.getD "running"
    progress := s.progress.getD 0
    participants := s.participants.getD 0
    startedAt := s.started_at.getD "—"
    estimatedEnd := s.estimated_end.getD "—" }

/-- POST /api/auth/login.  `verify` is app/auth.py's `verify_password`
(plaintext, stored hash), opaque here.  Returns the response and the session
after the request (login stores the user id on success). -/
def login (verify : String → String → Bool) (db : DB) (session : Option Int)
    (emailRaw passwordRaw : Option String) :
    Resp PublicUser × Option Int :=
  let email := pyLower (pyStrip (emailRaw.getD ""))
  let password := passwordRaw.getD ""
  if email = "" ∨ password = "" then
    (Resp.err 400 "Email and password required", session)
  else
    match db.users.find? (fun u => u.email == email) with
    | none => (Resp.err 401 "Invalid email or password", session)
    | some u =>
      if verify password u.password_hash then
        (Resp.ok ⟨u.id, u.email, u.role, u.name⟩, some u.id)
      else
        (Resp.err 401 "Invalid email or password", session)

/-- POST /api/auth/logout: clears the session. -/
def logout (_session : Option Int) : Resp Unit × Option Int :=
  (Resp.ok (), none)

/-- GET /api/auth/me.  Returns the response and the session after the
request: a bound id that no longer resolves clears the session. -/
def me (db : DB) (session : Option Int) : Resp PublicUser × Option Int :=
  match require_user_id session with
  | Except.error _ => (Resp.err 401 "Not authenticated", session)
  | Except.ok uid =>
    match db.users.find? (fun u => u.id == uid) with
    | none => (Resp.err 401 "Not authenticated", none)
    | some u => (Resp.ok ⟨u.id, u.email, u.role, u.name⟩, session)

/-- The FROM user_simulations JOIN simulations ON s.id = us.simulation_id
WHERE us.user_id = uid of the list endpoint, in table order. -/
def joinRows (db : DB) (uid : Int) : List Simulation :=
  (db.memberships.filter (fun m => m.user_id == uid)).filterMap
    (fun m => db.simulations.find? (fun s => s.id == m.simulation_id))

/-- Insert a row into a list already ordered by id descending (helper for
the model of ORDER BY s.id DESC). -/
def insertDesc (x : Simulation) : List Simulation → List Simulation
  | [] => [x]
  | y :: ys => if y.id ≤ x.id then x :: y :: ys else y :: insertDesc x ys

/-- ORDER BY s.id DESC: insertion sort by id, descending. -/
def sortByIdDesc : List Simulation → List Simulation
  | [] => []
  | x :: xs => insertDesc x (sortByIdDesc xs)

/-- GET /api/simulations: the join, ordered newest-id-first, each row run
through the COALESCE defaults. -/
def list_simulations (db : DB) (session : Option Int) : Resp (List SimView) :=
  match require_user_id session with
  | Except.error _ => Resp.err 401 "Not authenticated"
  | Except.ok uid => Resp.ok ((sortByIdDesc (joinRows db uid)).map viewOf)

/-- SQLite `cur.lastrowid` for an INSERT into simulations: the fresh
auto-increment id, strictly above every id already in the table. -/
def nextId (db : DB) : Int :=
  (db.simulations.foldl (fun acc s => max acc s.id) 0) + 1

/-- The type field of a create request:
`(data.get("type") or "phishing").strip()` — default substitution first
(only when the key is absent or the value is empty before trimming),
trimming after. -/
def simTypeOf (typeRaw : Option String) : String :=
  pyStrip (pyOr typeRaw "phishing")

/-- POST /api/simulations.  Validates the trimmed name, inserts the
Simulation row with the literal defaults of the INSERT statement, inserts
(OR IGNORE, i.e. skipped when a row with the same user and simulation already
exists) the creator's admin membership, and re-reads the created row through
the COALESCE SELECT.  The whole body runs inside one connection scope with a
single commit; the returned `DB` is the committed state. -/
def create_simulation (db : DB) (session : Option Int) (clock : Int)
    (nameRaw typeRaw : Option String) : Resp SimView × DB :=
  match require_user_id session with
  | Except.error _ => (Resp.err 401 "Not authenticated", db)
  | Except.ok uid =>
    let name := pyStrip (nameRaw.getD "")
    let sim_type := simTypeOf typeRaw
    if name = "" then
      (Resp.err 400 "Simulation name is required", db)
    else
      let sim_id := nextId db
      let sim : Simulation :=
        { id := sim_id, name := name, type := sim_type,
          status := some "running", progress := some 0, participants := some 0,
          started_at := some (datetimeNow clock),
          estimated_end := some (datePlus clock 7) }
      let db1 : DB := { db with simulations := db.simulations ++ [sim] }
      let db2 : DB :=
        if db1.memberships.any
            (fun m => m.user_id == uid && m.simulation_id == sim_id) then
          db1
        else
          { db1 with memberships :=
              db1.memberships ++ [⟨uid, sim_id, some "admin"⟩] }
      match db2.simulations.find? (fun s => s.id == sim_id) with
      | none => (Resp.err 500 "", db2)
      | some created => (Resp.ok (viewOf created), db2)

/-- The membership query of the delete endpoint: SELECT us.role, u.role FROM
user_simulations us JOIN users u ON u.id = us.user_id WHERE us.user_id = uid
AND us.simulation_id = simId, fetchone. -/
def membership_lookup (db : DB) (uid simId : Int) :
    Option (Option String × Option String) :=
  match db.memberships.find?
      (fun m => m.user_id == uid && m.simulation_id == simId) with
  | none => none
  | some m =>
    match db.users.find? (fun u => u.id == uid) with
    | none => none
    | some u => some (m.role, u.role)

/-- DELETE /api/simulations/{simulation_id}.  404 when the membership query
returns no row; otherwise allowed iff the membership role is exactly "admin"
or `is_admin` holds of the global role; on allow, deletes the simulation row
and every membership row of that simulation under one commit. -/
def delete_simulation (db : DB) (session : Option Int) (simulation_id : Int) :
    Resp Unit × DB :=
  match require_user_id session with
  | Except.error _ => (Resp.err 401 "Not authenticated", db)
  | Except.ok uid =>
    match membership_lookup db uid simulation_id with
    | none => (Resp.err 404 "Not found", db)
    | some (mrole, urole) =>
      if mrole == some "admin" || is_admin urole then
        (Resp.ok (),
         { db with
             simulations := db.simulations.filter
               (fun s => !(s.id == simulation_id)),
             memberships := db.memberships.filter
               (fun m => !(m.simulation_id == simulation_id)) })
      else
        (Resp.err 403 "Forbidden", db)

/-- The Simulation row inserted by a successful create: the VALUES tuple of
the INSERT statement at the fresh auto-increment id. -/
def newSim (db : DB) (clock : Int) (nameRaw typeRaw : Option String) : Simulation :=
  { id := nextId db
    name := pyStrip (nameRaw.getD "")
    type := simTypeOf typeRaw
    status := some "running"
    progress := some 0
    participants := some 0
    started_at := some (datetimeNow clock)
    estimated_end := some (datePlus clock 7) }

/-! ## Concrete stores used by the counterexamples and witnesses -/

def C1xdb : DB :=
  ⟨[⟨1, "admin@example.com", "h", some "admin", none⟩],
   [⟨1, "Y", "phishing", none, none, none, none, none⟩],
   []⟩

def C1wdb : DB :=
  ⟨[⟨1, "root@x.com", "h", some "Admin", none⟩],
   [⟨5, "Y", "phishing", none, none, none, none, none⟩],
   [⟨1, 5, some "viewer"⟩]⟩

def C2xdb : DB :=
  ⟨[⟨1, "u@x.com", "h", some "user", none⟩],
   [⟨5, "X", "phishing", none, none, none, none, none⟩],
   [⟨1, 5, some "Admin"⟩]⟩

def C2wdb : DB :=
  ⟨[⟨1, "u@x.com", "h", some "user", none⟩],
   [⟨5, "X", "phishing", none, none, none, none, none⟩],
   [⟨1, 5, some "admin"⟩]⟩

def C3wdb : DB :=
  ⟨[⟨1, "u@x.com", "h", none, none⟩],
   [⟨9, "S", "phishing", none, none, none, none, none⟩],
   [⟨2, 9, some "admin"⟩]⟩

def C4wdb : DB := ⟨[⟨1, "a@x.com", "h", none, none⟩], [], []⟩

def C5wdb : DB := ⟨[⟨1, "a@x.com", "h", none, none⟩], [], []⟩

def C6wdb : DB :=
  ⟨[⟨1, "u@x.com", "h", none, none⟩],
   [⟨3, "Old", "phishing", none, none, none, none, none⟩],
   [⟨1, 3, some "admin"⟩]⟩

def C7wdb : DB :=
  ⟨[⟨1, "u@x.com", "h", none, none⟩],
   [⟨5, "X", "phishing", none, none, none, none, none⟩,
    ⟨6, "Z", "phishing", none, none, none, none, none⟩],
   [⟨1, 5, some "admin"⟩, ⟨2, 5, some "viewer"⟩, ⟨1, 6, some "admin"⟩]⟩

def C8wdb : DB :=
  ⟨[⟨1, "u@x.com", "h", none, none⟩],
   [⟨1, "A", "phishing", none, none, none, none, none⟩,
    ⟨2, "B", "training", some "done", some 50, some 10, some "d1", some "d2"⟩],
   [⟨1, 1, some "admin"⟩, ⟨1, 2, some "member"⟩, ⟨2, 1, some "admin"⟩]⟩

def C9wdb : DB := ⟨[⟨3, "u@x.com", "secret", some "user", some "U"⟩], [], []⟩

def C10wdb : DB := ⟨[⟨1, "u@x.com", "h", none, none⟩], [], []⟩

/-! ## Helper lemmas -/

/-- A member satisfying the predicate forces find? to return some hit. -/
theorem find?_isSome_of_mem {α : Type} (l : List α) (p : α → Bool) (x : α)
    (hx : x ∈ l) (hp : p x = true) : ∃ y, l.find? p = some y := by
  cases h : l.find? p with
  | none => exact absurd hp (by simpa using List.find?_eq_none.mp h x hx)
  | some y => exact ⟨y, rfl⟩

/-- On a list whose ids are pairwise distinct, searching for the id of a
member returns that member. -/
theorem find?_id_of_mem_of_distinct (l : List Simulation) (s : Simulation)
    (hdist : l.Pairwise (fun a b => a.id ≠ b.id)) (hs : s ∈ l) :
    l.find? (fun x => x.id == s.id) = some s := by
  induction l with
  | nil => cases hs
  | cons y ys ih =>
    rcases List.mem_cons.mp hs with rfl | hs_tail
    · simp [List.find?]
    · have hne : y.id ≠ s.id := (List.pairwise_cons.mp hdist).1 s hs_tail
      simp only [List.find?, beq_eq_false_iff_ne.mpr hne]
      exact ih (List.pairwise_cons.mp hdist).2 hs_tail

/-- Appending a row whose id is new to the table and searching for that id
finds exactly the appended row. -/
theorem find?_append_fresh (l : List Simulation) (sim : Simulation)
    (hfresh : ∀ s ∈ l, s.id ≠ sim.id) :
    (l ++ [sim]).find? (fun s => s.id == sim.id) = some sim := by
  induction l with
  | nil => simp [List.find?]
  | cons y ys ih =>
    have hy : (y.id == sim.id) = false :=
      beq_eq_false_iff_ne.mpr (hfresh y (List.mem_cons_self y ys))
    simp only [List.cons_append, List.find?, hy]
    exact ih (fun s hs => hfresh s (List.mem_cons_of_mem y hs))

/-- The accumulator is monotone under the running-maximum fold. -/
theorem le_foldl_max (l : List Simulation) (a : Int) :
    a ≤ l.foldl (fun acc x => max acc x.id) a := by
  induction l generalizing a with
  | nil => exact le_refl a
  | cons y ys ih => exact le_trans (le_max_left a y.id) (ih (max a y.id))

/-- Every id in the table is bounded by the running maximum. -/
theorem id_le_foldl_max (l : List Simulation) (a : Int) (s : Simulation)
    (hs : s ∈ l) : s.id ≤ l.foldl (fun acc x => max acc x.id) a := by
  induction l generalizing a with
  | nil => cases hs
  | cons y ys ih =>
    rcases List.mem_cons.mp hs with rfl | hs_tail
    · exact le_trans (le_max_right a s.id) (le_foldl_max ys (max a s.id))
    · exact ih (max a y.id) hs_tail

/-- The auto-increment id is strictly above every id already in the table. -/
theorem nextId_fresh (db : DB) (s : Simulation) (hs : s ∈ db.simulations) :
    s.id ≠ nextId db := by
  have := id_le_foldl_max db.simulations 0 s hs
  unfold nextId
  omega

/-- Membership in the insertion step of the ORDER BY model. -/
theorem mem_insertDesc (x a : Simulation) (l : List Simulation) :
    a ∈ insertDesc x l ↔ a = x ∨ a ∈ l := by
  induction l with
  | nil => simp [insertDesc]
  | cons y ys ih =>
    by_cases h : y.id ≤ x.id
    · simp [insertDesc, h]
    · simp only [insertDesc, if_neg h, List.mem_cons, ih]
      tauto

/-- Sorting by id preserves the rows of the join. -/
theorem mem_sortByIdDesc (a : Simulation) (l : List Simulation) :
    a ∈ sortByIdDesc l ↔ a ∈ l := by
  induction l with
  | nil => simp [sortByIdDesc]
  | cons y ys ih => simp [sortByIdDesc, mem_insertDesc, ih]

/-- Inserting into a descending list keeps it descending. -/
theorem pairwise_insertDesc (x : Simulation) (l : List Simulation)
    (h : l.Pairwise (fun a b => b.id ≤ a.id)) :
    (insertDesc x l).Pairwise (fun a b => b.id ≤ a.id) := by
  induction l with
  | nil => simp [insertDesc]
  | cons y ys ih =>
    rcases List.pairwise_cons.mp h with ⟨hy, hys⟩
    by_cases hle : y.id ≤ x.id
    · have hstep : insertDesc x (y :: ys) = x :: y :: ys := by
        simp [insertDesc, hle]
      rw [hstep]
      refine List.pairwise_cons.mpr ⟨fun b hb => ?_, h⟩
      rcases List.mem_cons.mp hb with rfl | hb_tail
      · exact hle
      · exact le_trans (hy b hb_tail) hle
    · have hstep : insertDesc x (y :: ys) = y :: insertDesc x ys := by
        simp [insertDesc, hle]
      rw [hstep]
      refine List.pairwise_cons.mpr ⟨fun b hb => ?_, ih hys⟩
      rcases (mem_insertDesc x b ys).mp hb with rfl | hb_tail
      · omega
      · exact hy b hb_tail

/-- The ORDER BY model produces a list descending in id. -/
theorem pairwise_sortByIdDesc (l : List Simulation) :
    (sortByIdDesc l).Pairwise (fun a b => b.id ≤ a.id) := by
  induction l with
  | nil => simp [sortByIdDesc]
  | cons y ys ih => exact pairwise_insertDesc y (sortByIdDesc ys) ih

/-! ## Endpoint behaviour lemmas -/

/-- On a satisfied authorization condition, delete removes the simulation row
and every membership row of the simulation, in one state transition. -/
theorem delete_allowed_spec (db : DB) (uid sid : Int) (mrole urole : Option String)
    (huid : uid ≠ 0)
    (hlk : membership_lookup db uid sid = some (mrole, urole))
    (hallow : (mrole == some "admin" || is_admin urole) = true) :
    delete_simulation db (some uid) sid =
      (Resp.ok (),
       { db with
           simulations := db.simulations.filter (fun s => !(s.id == sid)),
           memberships := db.memberships.filter (fun m => !(m.simulation_id == sid)) }) := by
  unfold delete_simulation require_user_id
  simp [huid, hlk, hallow]

/-- On a failed authorization condition, delete answers 403 and leaves the
store untouched. -/
theorem delete_forbidden_spec (db : DB) (uid sid : Int) (mrole urole : Option String)
    (huid : uid ≠ 0)
    (hlk : membership_lookup db uid sid = some (mrole, urole))
    (hdeny : (mrole == some "admin" || is_admin urole) = false) :
    delete_simulation db (some uid) sid = (Resp.err 403 "Forbidden", db) := by
  unfold delete_simulation require_user_id
  simp [huid, hlk, hdeny]

/-- On a missing membership row the delete answers 404 untouched. -/
theorem delete_notfound_spec (db : DB) (uid sid : Int) (huid : uid ≠ 0)
    (hlk : membership_lookup db uid sid = none) :
    delete_simulation db (some uid) sid = (Resp.err 404 "Not found", db) := by
  unfold delete_simulation require_user_id
  simp [huid, hlk]

/-- A delete that answered ok left exactly the filtered store behind. -/
theorem delete_ok_inv (db : DB) (uid sid : Int) (huid : uid ≠ 0)
    (hok : (delete_simulation db (some uid) sid).1 = Resp.ok ()) :
    (delete_simulation db (some uid) sid).2 =
      { db with
          simulations := db.simulations.filter (fun s => !(s.id == sid)),
          memberships := db.memberships.filter (fun m => !(m.simulation_id == sid)) } := by
  cases hlk : membership_lookup db uid sid with
  | none =>
    rw [delete_notfound_spec db uid sid huid hlk] at hok
    simp at hok
  | some pr =>
    obtain ⟨mrole, urole⟩ := pr
    by_cases hall : (mrole == some "admin" || is_admin urole) = true
    · rw [delete_allowed_spec db uid sid mrole urole huid hlk hall]
    · have hf : (mrole == some "admin" || is_admin urole) = false := by
        simpa using hall
      rw [delete_forbidden_spec db uid sid mrole urole huid hlk hf] at hok
      simp at hok

/-- For a live session, the list endpoint answers ok with the sorted,
defaulted join. -/
theorem list_simulations_ok (db : DB) (uid : Int) (huid : uid ≠ 0) :
    list_simulations db (some uid)
      = Resp.ok ((sortByIdDesc (joinRows db uid)).map viewOf) := by
  unfold list_simulations require_user_id
  simp [huid]

/-- A create with a nonempty trimmed name answers ok with the freshly-read
row and commits exactly the inserted Simulation row plus — unless a
membership of the creator on the fresh id was already present — the
creator's admin membership. -/
theorem create_success_spec (db : DB) (uid clock : Int)
    (nameRaw typeRaw : Option String) (huid : uid ≠ 0)
    (hname : pyStrip (nameRaw.getD "") ≠ "") :
    create_simulation db (some uid) clock nameRaw typeRaw =
      (Resp.ok (viewOf (newSim db clock nameRaw typeRaw)),
       { db with
           simulations := db.simulations ++ [newSim db clock nameRaw typeRaw],
           memberships :=
             if db.memberships.any
                 (fun m => m.user_id == uid && m.simulation_id == nextId db) then
               db.memberships
             else
               db.memberships ++ [⟨uid, nextId db, some "admin"⟩] }) := by
  have hnone : db.simulations.find? (fun s => s.id == nextId db) = none := by
    rw [List.find?_eq_none]
    intro s hs
    simpa using nextId_fresh db s hs
  by_cases hany : db.memberships.any
      (fun m => m.user_id == uid && m.simulation_id == nextId db) = true
  · unfold create_simulation require_user_id
    simp only [if_neg huid]
    simp [hname, hany, newSim, hnone]
  · have hany2 : db.memberships.any
        (fun m => m.user_id == uid && m.simulation_id == nextId db) = false := by
      simpa using hany
    unfold create_simulation require_user_id
    simp only [if_neg huid]
    simp [hname, hany2, newSim, hnone]

/-! ## Claims -/

/-- Claim C1 as stated is false at a concrete input: user 1 is a global
admin, simulation 1 exists, user 1 has no membership row on it, yet the
delete answers 404 "Not found" and not ok. -/
theorem C1_counterexample :
    C1xdb.users = [⟨1, "admin@example.com", "h", some "admin", none⟩] ∧
    is_admin (some "admin") = true ∧
    C1xdb.memberships = [] ∧
    (∃ s ∈ C1xdb.simulations, s.id = 1) ∧
    delete_simulation C1xdb (some 1) 1 = (Resp.err 404 "Not found", C1xdb) ∧
    (delete_simulation C1xdb (some 1) 1).1 ≠ Resp.ok () := by
  decide

/-- Claim C1 amended: a user whose global role is admin and who has a
Membership row on simulation Y — of any membership role — successfully
deletes Y, and after the deletion all Membership rows for Y are gone; with
no Membership row the endpoint answers 404 instead. -/
theorem C1_amended_global_admin_delete (db : DB) (uid Y : Int) (u : User)
    (huid : uid ≠ 0)
    (hu : db.users.find? (fun x => x.id == uid) = some u)
    (hadmin : is_admin u.role = true)
    (hm : ∃ m ∈ db.memberships, m.user_id = uid ∧ m.simulation_id = Y) :
    (delete_simulation db (some uid) Y).1 = Resp.ok () ∧
    (∀ m ∈ (delete_simulation db (some uid) Y).2.memberships, m.simulation_id ≠ Y) := by
  obtain ⟨m0, hm0mem, hm0u, hm0s⟩ := hm
  obtain ⟨m1, hfind⟩ := find?_isSome_of_mem db.memberships
      (fun m => m.user_id == uid && m.simulation_id == Y) m0 hm0mem
      (by simp [hm0u, hm0s])
  have hlk : membership_lookup db uid Y = some (m1.role, u.role) := by
    unfold membership_lookup
    rw [hfind, hu]
  have hallow : (m1.role == some "admin" || is_admin u.role) = true := by
    simp [hadmin]
  rw [delete_allowed_spec db uid Y m1.role u.role huid hlk hallow]
  refine ⟨rfl, fun m hmm => ?_⟩
  have := (List.mem_filter.mp hmm).2
  simpa using this

theorem C1_amended_witness :
    (delete_simulation C1wdb (some 1) 5).1 = Resp.ok () :=
  (C1_amended_global_admin_delete C1wdb 1 5 ⟨1, "root@x.com", "h", some "Admin", none⟩
    (by decide) (by decide) (by decide) ⟨⟨1, 5, some "viewer"⟩, by decide, by decide, by decide⟩).1

/-- Claim C2 as stated is false at a concrete input: user 1 has a membership
row on simulation 5 whose role "Admin" equals "admin" case-insensitively, so
the claim demands the delete be allowed, but the endpoint answers 403
"Forbidden": the membership-role comparison in the code is case-sensitive. -/
theorem C2_counterexample :
    C2xdb.memberships = [⟨1, 5, some "Admin"⟩] ∧
    pyLower "Admin" = "admin" ∧
    is_admin (some "user") = false ∧
    delete_simulation C2xdb (some 1) 5 = (Resp.err 403 "Forbidden", C2xdb) ∧
    (delete_simulation C2xdb (some 1) 5).1 ≠ Resp.ok () := by
  decide

/-- Claim C2 amended: for a user with a Membership row, the delete is allowed
iff the membership role equals "admin" exactly (case-sensitively) OR the
lowercased global role equals "admin" (case-insensitively); otherwise the
answer is 403 "Forbidden". -/
theorem C2_amended_member_delete_decision (db : DB) (uid sid : Int)
    (mrole urole : Option String) (huid : uid ≠ 0)
    (hlk : membership_lookup db uid sid = some (mrole, urole)) :
    ((delete_simulation db (some uid) sid).1 = Resp.ok ()
        ↔ (mrole = some "admin" ∨ pyLower (urole.getD "") = "admin")) ∧
    (¬(mrole = some "admin" ∨ pyLower (urole.getD "") = "admin") →
        (delete_simulation db (some uid) sid).1 = Resp.err 403 "Forbidden") := by
  have hbool : (mrole == some "admin" || is_admin urole) = true
      ↔ (mrole = some "admin" ∨ pyLower (urole.getD "") = "admin") := by
    simp [is_admin]
  by_cases hall : (mrole == some "admin" || is_admin urole) = true
  · rw [delete_allowed_spec db uid sid mrole urole huid hlk hall]
    exact ⟨by simpa using hbool.mp hall, fun hc => absurd (hbool.mp hall) hc⟩
  · have hf : (mrole == some "admin" || is_admin urole) = false := by
      simpa using hall
    rw [delete_forbidden_spec db uid sid mrole urole huid hlk hf]
    constructor
    · constructor
      · intro h; simp at h
      · intro h; exact absurd (hbool.mpr h) hall
    · intro _; rfl

theorem C2_amended_witness :
    (delete_simulation C2wdb (some 1) 5).1 = Resp.ok () :=
  ((C2_amended_member_delete_decision C2wdb 1 5 (some "admin") (some "user")
      (by decide) (by decide)).1).mpr (Or.inl rfl)

/-- Claim C3: for every authenticated user and every simulation id for which
that user has no Membership row — whether the simulation exists or not —
delete returns 404 with the body "Not found" and leaves the store untouched;
in particular the response is identical to the one produced on a store
containing no simulations at all, so a missing resource and an inaccessible
resource are indistinguishable to the caller. -/
theorem C3_no_membership_notfound (db : DB) (uid sid : Int) (huid : uid ≠ 0)
    (hnm : ∀ m ∈ db.memberships, ¬(m.user_id = uid ∧ m.simulation_id = sid)) :
    delete_simulation db (some uid) sid = (Resp.err 404 "Not found", db) ∧
    (delete_simulation db (some uid) sid).1 =
      (delete_simulation { db with simulations := [] } (some uid) sid).1 := by
  have hfind : db.memberships.find?
      (fun m => m.user_id == uid && m.simulation_id == sid) = none := by
    rw [List.find?_eq_none]
    intro m hm
    have := hnm m hm
    simp only [Bool.and_eq_true, beq_iff_eq]
    tauto
  have hlk : membership_lookup db uid sid = none := by
    unfold membership_lookup
    rw [hfind]
  have hlk2 : membership_lookup { db with simulations := [] } uid sid = none := by
    unfold membership_lookup
    rw [show ({ db with simulations := [] } : DB).memberships = db.memberships from rfl,
        hfind]
  constructor
  · unfold delete_simulation require_user_id
    simp [huid, hlk]
  · unfold delete_simulation require_user_id
    simp [huid, hlk, hlk2]

theorem C3_witness :
    delete_simulation C3wdb (some 1) 9 = (Resp.err 404 "Not found", C3wdb) :=
  (C3_no_membership_notfound C3wdb 1 9 (by decide) (by decide)).1

/-- Claim C4: every login attempt that fails because no user matches the
normalized email, and every one that fails because password verification
fails, gets the identical response — status 401 with body "Invalid email or
password" — regardless of the verifier. -/
theorem C4_login_failures_identical
    (verify : String → String → Bool) (db : DB) (session : Option Int)
    (emailRaw passwordRaw : Option String)
    (hnonempty : ¬(pyLower (pyStrip (emailRaw.getD "")) = "" ∨ passwordRaw.getD "" = "")) :
    (db.users.find? (fun u => u.email == pyLower (pyStrip (emailRaw.getD ""))) = none →
      (login verify db session emailRaw passwordRaw).1 =
        Resp.err 401 "Invalid email or password") ∧
    (∀ u, db.users.find? (fun u => u.email == pyLower (pyStrip (emailRaw.getD ""))) = some u →
      verify (passwordRaw.getD "") u.password_hash = false →
      (login verify db session emailRaw passwordRaw).1 =
        Resp.err 401 "Invalid email or password") := by
  constructor
  · intro hnone
    unfold login
    simp [hnonempty, hnone]
  · intro u hu hv
    unfold login
    simp [hnonempty, hu, hv]

theorem C4_witness :
    (login (fun _ _ => true) C4wdb none (some "b@x.com") (some "pw")).1
      = Resp.err 401 "Invalid email or password" :=
  (C4_login_failures_identical (fun _ _ => true) C4wdb none (some "b@x.com")
    (some "pw") (by decide)).1 (by decide)

/-- Claim C5: an authenticated create whose name is empty or whitespace-only
after trimming fails with status 400 and body "Simulation name is required",
and returns the store unchanged: no Simulation row and no Membership row is
persisted. -/
theorem C5_empty_name_rejected (db : DB) (uid clock : Int)
    (nameRaw typeRaw : Option String) (huid : uid ≠ 0)
    (hname : pyStrip (nameRaw.getD "") = "") :
    create_simulation db (some uid) clock nameRaw typeRaw =
      (Resp.err 400 "Simulation name is required", db) := by
  unfold create_simulation require_user_id
  simp [huid, hname]

theorem C5_witness :
    create_simulation C5wdb (some 1) 0 (some "   ") none
      = (Resp.err 400 "Simulation name is required", C5wdb) :=
  C5_empty_name_rejected C5wdb 1 0 (some "   ") none (by decide) (by decide)

/-- Claim C6: an authenticated create with a nonempty trimmed name inserts a
Simulation row with status "running", progress 0, participants 0, start
timestamp the creation time and estimated end the start advanced by 7 days,
inserts the creator's "admin" Membership row in the same state transition,
answers with the freshly-read row, and the created simulation appears in the
creator's list afterwards.  (The hypothesis href is the referential
integrity of the pre-state: every membership row names an existing
simulation, which the schema's foreign keys enforce.) -/
theorem C6_create_success (db : DB) (uid clock : Int)
    (nameRaw typeRaw : Option String) (huid : uid ≠ 0)
    (hname : pyStrip (nameRaw.getD "") ≠ "")
    (href : ∀ m ∈ db.memberships, ∃ s ∈ db.simulations, m.simulation_id = s.id) :
    ∃ sim : Simulation,
      sim.id = nextId db ∧
      sim.name = pyStrip (nameRaw.getD "") ∧
      sim.status = some "running" ∧
      sim.progress = some 0 ∧
      sim.participants = some 0 ∧
      sim.started_at = some (datetimeNow clock) ∧
      sim.estimated_end = some (datePlus clock 7) ∧
      datePlus clock 7 = datetimeNow (clock + 7) ∧
      (create_simulation db (some uid) clock nameRaw typeRaw).1 = Resp.ok (viewOf sim) ∧
      (create_simulation db (some uid) clock nameRaw typeRaw).2.simulations
          = db.simulations ++ [sim] ∧
      (create_simulation db (some uid) clock nameRaw typeRaw).2.memberships
          = db.memberships ++ [⟨uid, nextId db, some "admin"⟩] ∧
      (∃ vs, list_simulations (create_simulation db (some uid) clock nameRaw typeRaw).2
          (some uid) = Resp.ok vs ∧ viewOf sim ∈ vs) := by
  have hany : db.memberships.any
      (fun m => m.user_id == uid && m.simulation_id == nextId db) = false := by
    rw [List.any_eq_false]
    intro m hm
    simp only [Bool.and_eq_true, beq_iff_eq, not_and]
    intro _ hsid
    obtain ⟨s, hs, hseq⟩ := href m hm
    exact nextId_fresh db s hs (hseq ▸ hsid)
  have hspec := create_success_spec db uid clock nameRaw typeRaw huid hname
  rw [hany] at hspec
  simp only [Bool.false_eq_true, if_false] at hspec
  refine ⟨newSim db clock nameRaw typeRaw, rfl, rfl, rfl, rfl, rfl, rfl, rfl, rfl,
      ?_, ?_, ?_, ?_⟩
  · rw [hspec]
  · rw [hspec]
  · rw [hspec]
  · rw [hspec]
    have hmem : (⟨uid, nextId db, some "admin"⟩ : MembershipRow)
        ∈ (db.memberships ++ [(⟨uid, nextId db, some "admin"⟩ : MembershipRow)]).filter
            (fun m => m.user_id == uid) := by
      refine List.mem_filter.mpr ⟨List.mem_append_right _ (List.mem_singleton.mpr rfl), ?_⟩
      simp
    have hfind : (db.simulations ++ [newSim db clock nameRaw typeRaw]).find?
        (fun s => s.id == nextId db) = some (newSim db clock nameRaw typeRaw) := by
      have h := find?_append_fresh db.simulations (newSim db clock nameRaw typeRaw)
        (fun s hs => nextId_fresh db s hs)
      simpa [newSim] using h
    have hjoin : newSim db clock nameRaw typeRaw ∈
        joinRows { db with
            simulations := db.simulations ++ [newSim db clock nameRaw typeRaw],
            memberships := db.memberships ++ [⟨uid, nextId db, some "admin"⟩] } uid := by
      exact List.mem_filterMap.mpr ⟨⟨uid, nextId db, some "admin"⟩, hmem, hfind⟩
    exact ⟨_, list_simulations_ok _ uid huid,
      List.mem_map.mpr ⟨newSim db clock nameRaw typeRaw,
        (mem_sortByIdDesc _ _).mpr hjoin, rfl⟩⟩

theorem C6_witness :
    ∃ sim : Simulation,
      sim.id = nextId C6wdb ∧
      sim.name = pyStrip ((some " Q-Phish " : Option String).getD "") ∧
      sim.status = some "running" ∧
      sim.progress = some 0 ∧
      sim.participants = some 0 ∧
      sim.started_at = some (datetimeNow 100) ∧
      sim.estimated_end = some (datePlus 100 7) ∧
      datePlus 100 7 = datetimeNow (100 + 7) ∧
      (create_simulation C6wdb (some 1) 100 (some " Q-Phish ") none).1
          = Resp.ok (viewOf sim) ∧
      (create_simulation C6wdb (some 1) 100 (some " Q-Phish ") none).2.simulations
          = C6wdb.simulations ++ [sim] ∧
      (create_simulation C6wdb (some 1) 100 (some " Q-Phish ") none).2.memberships
          = C6wdb.memberships ++ [⟨1, nextId C6wdb, some "admin"⟩] ∧
      (∃ vs, list_simulations
          (create_simulation C6wdb (some 1) 100 (some " Q-Phish ") none).2
          (some 1) = Resp.ok vs ∧ viewOf sim ∈ vs) :=
  C6_create_success C6wdb 1 100 (some " Q-Phish ") none (by decide) (by decide)
    (by decide)

/-- Claim C7: an authorized (ok-answering) delete removes the Simulation row
and all Membership rows of that simulation in the one state transition of
the request: afterwards no simulation with that id and no membership row for
it remains, and if no membership row referred to a nonexistent simulation
before, none does after. -/
theorem C7_delete_atomic_no_orphans (db : DB) (uid sid : Int) (huid : uid ≠ 0)
    (hok : (delete_simulation db (some uid) sid).1 = Resp.ok ())
    (href : ∀ m ∈ db.memberships, ∃ s ∈ db.simulations, m.simulation_id = s.id) :
    (delete_simulation db (some uid) sid).2.simulations
        = db.simulations.filter (fun s => !(s.id == sid)) ∧
    (delete_simulation db (some uid) sid).2.memberships
        = db.memberships.filter (fun m => !(m.simulation_id == sid)) ∧
    (∀ s ∈ (delete_simulation db (some uid) sid).2.simulations, s.id ≠ sid) ∧
    (∀ m ∈ (delete_simulation db (some uid) sid).2.memberships, m.simulation_id ≠ sid) ∧
    (∀ m ∈ (delete_simulation db (some uid) sid).2.memberships,
       ∃ s ∈ (delete_simulation db (some uid) sid).2.simulations, m.simulation_id = s.id) := by
  have hpost := delete_ok_inv db uid sid huid hok
  rw [hpost]
  refine ⟨rfl, rfl, ?_, ?_, ?_⟩
  · intro s hs
    have := (List.mem_filter.mp hs).2
    simpa using this
  · intro m hm
    have := (List.mem_filter.mp hm).2
    simpa using this
  · intro m hm
    obtain ⟨hm_mem, hm_ne⟩ := List.mem_filter.mp hm
    obtain ⟨s, hs_mem, hs_eq⟩ := href m hm_mem
    refine ⟨s, List.mem_filter.mpr ⟨hs_mem, ?_⟩, hs_eq⟩
    have hne : m.simulation_id ≠ sid := by simpa using hm_ne
    simp [← hs_eq, hne]

theorem C7_witness :
    (delete_simulation C7wdb (some 1) 5).2.memberships
        = C7wdb.memberships.filter (fun m => !(m.simulation_id == 5)) :=
  (C7_delete_atomic_no_orphans C7wdb 1 5 (by decide) (by decide) (by decide)).2.1

/-- Claim C8: for every authenticated user the list endpoint returns exactly
the simulations for which a Membership row of that user exists — every
returned row corresponds to such a simulation, with the COALESCE defaults
(status "running", progress 0, participants 0, timestamps "—") substituted
for missing optional fields, and every such simulation is returned — and the
result is ordered newest-id-first.  (The hypothesis hids is the primary-key
uniqueness of simulation ids.) -/
theorem C8_list_exactly_memberships (db : DB) (uid : Int) (huid : uid ≠ 0)
    (hids : db.simulations.Pairwise (fun a b => a.id ≠ b.id)) :
    ∃ vs, list_simulations db (some uid) = Resp.ok vs ∧
      (∀ v ∈ vs, ∃ s ∈ db.simulations,
         (∃ m ∈ db.memberships, m.user_id = uid ∧ m.simulation_id = s.id) ∧
         v.id = s.id ∧ v.name = s.name ∧ v.type = s.type ∧
         v.status = s.status.getD "running" ∧
         v.progress = s.progress.getD 0 ∧
         v.participants = s.participants.getD 0 ∧
         v.startedAt = s.started_at.getD "—" ∧
         v.estimatedEnd = s.estimated_end.getD "—") ∧
      (∀ s ∈ db.simulations,
         (∃ m ∈ db.memberships, m.user_id = uid ∧ m.simulation_id = s.id) →
         viewOf s ∈ vs) ∧
      vs.Pairwise (fun a b => b.id ≤ a.id) := by
  refine ⟨(sortByIdDesc (joinRows db uid)).map viewOf,
    list_simulations_ok db uid huid, ?_, ?_, ?_⟩
  · intro v hv
    obtain ⟨s, hs_sort, rfl⟩ := List.mem_map.mp hv
    have hs_join : s ∈ joinRows db uid := (mem_sortByIdDesc s _).mp hs_sort
    obtain ⟨m, hm_filter, hm_find⟩ := List.mem_filterMap.mp hs_join
    obtain ⟨hm_mem, hm_uid⟩ := List.mem_filter.mp hm_filter
    have hs_mem : s ∈ db.simulations := List.mem_of_find?_eq_some hm_find
    have hs_id : s.id = m.simulation_id := by
      simpa using List.find?_some hm_find
    exact ⟨s, hs_mem,
      ⟨m, hm_mem, by simpa using hm_uid, hs_id.symm⟩,
      rfl, rfl, rfl, rfl, rfl, rfl, rfl, rfl⟩
  · rintro s hs ⟨m, hm, hmu, hms⟩
    have hm_filter : m ∈ db.memberships.filter (fun m => m.user_id == uid) :=
      List.mem_filter.mpr ⟨hm, by simp [hmu]⟩
    have hfind : db.simulations.find? (fun x => x.id == m.simulation_id) = some s := by
      rw [hms]
      exact find?_id_of_mem_of_distinct db.simulations s hids hs
    have hjoin : s ∈ joinRows db uid :=
      List.mem_filterMap.mpr ⟨m, hm_filter, hfind⟩
    exact List.mem_map.mpr ⟨s, (mem_sortByIdDesc s _).mpr hjoin, rfl⟩
  · rw [List.pairwise_map]
    exact pairwise_sortByIdDesc (joinRows db uid)

theorem C8_witness :
    ∃ vs, list_simulations C8wdb (some 1) = Resp.ok vs ∧
      (∀ v ∈ vs, ∃ s ∈ C8wdb.simulations,
         (∃ m ∈ C8wdb.memberships, m.user_id = 1 ∧ m.simulation_id = s.id) ∧
         v.id = s.id ∧ v.name = s.name ∧ v.type = s.type ∧
         v.status = s.status.getD "running" ∧
         v.progress = s.progress.getD 0 ∧
         v.participants = s.participants.getD 0 ∧
         v.startedAt = s.started_at.getD "—" ∧
         v.estimatedEnd = s.estimated_end.getD "—") ∧
      (∀ s ∈ C8wdb.simulations,
         (∃ m ∈ C8wdb.memberships, m.user_id = 1 ∧ m.simulation_id = s.id) →
         viewOf s ∈ vs) ∧
      vs.Pairwise (fun a b => b.id ≤ a.id) :=
  C8_list_exactly_memberships C8wdb 1 (by decide) (by decide)

/-- Claim C9: a session bound to a user id that no longer exists in the users
table gets 401 "Not authenticated" from /auth/me and the session is cleared;
a session bound to an existing user gets exactly the id, email, role and name
of that user, and the response is unchanged when every stored password hash
is erased — the hash never reaches the response. -/
theorem C9_me_stale_session (db : DB) (uid : Int) (huid : uid ≠ 0) :
    (db.users.find? (fun u => u.id == uid) = none →
      me db (some uid) = (Resp.err 401 "Not authenticated", none)) ∧
    (∀ u, db.users.find? (fun u => u.id == uid) = some u →
      me db (some uid) = (Resp.ok ⟨u.id, u.email, u.role, u.name⟩, some uid)) ∧
    me { db with users := db.users.map (fun u => { u with password_hash := "" }) }
        (some uid) = me db (some uid) := by
  refine ⟨?_, ?_, ?_⟩
  · intro hnone
    unfold me require_user_id
    simp [huid, hnone]
  · intro u hu
    unfold me require_user_id
    simp [huid, hu]
  · unfold me require_user_id
    have hmap : (db.users.map (fun u => { u with password_hash := "" })).find?
        (fun u => u.id == uid)
        = (db.users.find? (fun u => u.id == uid)).map
            (fun u => { u with password_hash := "" }) := by
      rw [List.find?_map]; rfl
    cases hfind : db.users.find? (fun u => u.id == uid) with
    | none => simp [huid, hmap, hfind]
    | some u => simp [huid, hmap, hfind]

theorem C9_witness :
    me C9wdb (some 7) = (Resp.err 401 "Not authenticated", none) :=
  (C9_me_stale_session C9wdb 7 (by decide)).1 (by decide)

/-- Claim C10: when the type field is present but whitespace-only, the
created simulation's type is the empty string, not the default "phishing";
the default is substituted only when the field is absent or empty before
trimming, and trimming happens after the substitution. -/
theorem C10_whitespace_type (db : DB) (uid clock : Int) (nameRaw : Option String)
    (t : String) (huid : uid ≠ 0) (hname : pyStrip (nameRaw.getD "") ≠ "")
    (ht : t ≠ "") (htw : pyStrip t = "") :
    (∃ v : SimView,
       (create_simulation db (some uid) clock nameRaw (some t)).1 = Resp.ok v ∧
       v.type = "" ∧ v.type ≠ "phishing") ∧
    simTypeOf (some t) = "" ∧
    simTypeOf none = "phishing" ∧
    simTypeOf (some "") = "phishing" := by
  have htype : simTypeOf (some t) = "" := by
    unfold simTypeOf pyOr
    simpa [ht] using htw
  have hspec := create_success_spec db uid clock nameRaw (some t) huid hname
  refine ⟨⟨viewOf (newSim db clock nameRaw (some t)), ?_, ?_, ?_⟩, htype, by decide, by decide⟩
  · rw [hspec]
  · simpa [viewOf, newSim] using htype
  · simp only [viewOf, newSim]
    rw [htype]
    decide

theorem C10_witness :
    (∃ v : SimView,
       (create_simulation C10wdb (some 1) 0 (some "S") (some " \t ")).1 = Resp.ok v ∧
       v.type = "" ∧ v.type ≠ "phishing") ∧
    simTypeOf (some " \t ") = "" ∧
    simTypeOf none = "phishing" ∧
    simTypeOf (some "") = "phishing" :=
  C10_whitespace_type C10wdb 1 0 (some "S") " \t " (by decide) (by decide)
    (by decide) (by decide)
